import Mathlib

/-!
Shallow embedding of the motif contour-classification subsystem
(`motif/run.py`, `motif/contour_classifiers/mv_gaussian.py`,
`motif/contour_classifiers/random_forest.py`) and proofs about it.

Python floats are modelled as rationals, numpy matrices as lists of rows,
and Python exceptions as an explicit error type threaded through `Except`.
The scipy/sklearn numeric kernels (boxcox, multivariate-normal pdf,
shuffle, randomized search) are opaque external libraries; they are taken
as function-valued parameters, so every theorem holds for all of them.
-/

namespace Motif

/-- A numpy 2-D array of floats: a list of rows. -/
abbrev Mat := List (List ℚ)

/-- Python exceptions that the embedded code can raise. -/
inductive PyErr where
  | valueError (msg : String)
  | keyError (msg : String)
  | referenceError (msg : String)
  | runtimeError (msg : String)
  | attributeError (msg : String)
  | unboundLocal (name : String)
 deriving DecidableEq

/-- `true` iff an `Except` computation finished without raising. -/
def isOkE {ε α : Type} : Except ε α → Bool
  | .ok _ => true
  | .error _ => false

/-- `EPS = 1.0` from mv_gaussian.py: the additive offset applied before boxcox. -/
def EPS : ℚ := 1

/-- `MAX_SCORE = 10000.0` from mv_gaussian.py. -/
def MAX_SCORE : ℚ := 10000

/-- The masked-assignment sequence of `MvGaussian.predict`, per sample:
`ratio[nonzero_denom] = num/denom`, `ratio[zero_denom] = MAX_SCORE`,
`ratio[numerator == 0] = 0.0`, `ratio[ratio > MAX_SCORE] = MAX_SCORE`. -/
def ratioStep (num denom : ℚ) : ℚ :=
  let r1 := if denom ≠ 0 then num / denom else MAX_SCORE
  let r2 := if num = 0 then 0 else r1
  if MAX_SCORE < r2 then MAX_SCORE else r2

/-- The per-sample score policy exactly as the spec words it (claim side,
for comparison with `ratioStep`): numerator zero dominates and gives `0`,
otherwise a zero denominator saturates to `MAX_SCORE`, otherwise the
quotient clamped above at `MAX_SCORE`. -/
def scorePolicySpec (num denom : ℚ) : ℚ :=
  if num = 0 then 0
  else if denom = 0 then MAX_SCORE
  else min (num / denom) MAX_SCORE

/-- Numeric kernels from scipy used by `MvGaussian`:
`bcFit column` models `scipy.stats.boxcox(column)` returning the
transformed column and the fitted lambda; `bcApply lam x` models
`scipy.stats.boxcox(x, lmbda=lam)`; `mvnPdf mean cov` models
`scipy.stats.multivariate_normal(mean, cov, allow_singular=True).pdf`. -/
structure MvKernels where
  bcFit : List ℚ → List ℚ × ℚ
  bcApply : ℚ → ℚ → ℚ
  mvnPdf : List ℚ → Mat → List ℚ → ℚ

/-- Mutable state of an `MvGaussian` instance: the four fields assigned in
`__init__` / `fit` / `_fit_boxcox`. The two frozen scipy random variables
are kept as their pdf functions. -/
structure MvGaussian where
  rv_pos : Option (List ℚ → ℚ)
  rv_neg : Option (List ℚ → ℚ)
  n_feats : Option ℕ
  lmbda : Option (List ℚ)

/-- `MvGaussian.__init__`: all four fields start as `None`. -/
def MvGaussian.init : MvGaussian := ⟨none, none, none, none⟩

/-- Column `i` of a matrix (`X[:, i]`). -/
def col (X : Mat) (i : ℕ) : List ℚ := X.map (fun r => r.getD i 0)

/-- `X.shape[1]` for a rectangular matrix. -/
def nFeats (X : Mat) : ℕ := (X.headD []).length

/-- `np.mean(M, axis=0)`. -/
def meanCols (M : Mat) : List ℚ :=
  (List.range (nFeats M)).map (fun i => (col M i).sum / (M.length : ℚ))

/-- `np.cov(M, rowvar=0)` (numpy default `ddof=1`). -/
def covCols (M : Mat) : Mat :=
  let m := meanCols M
  (List.range (nFeats M)).map (fun i =>
    (List.range (nFeats M)).map (fun j =>
      (M.map (fun r => (r.getD i 0 - m.getD i 0) * (r.getD j 0 - m.getD j 0))).sum
        / ((M.length : ℚ) - 1)))

/-- `M[np.where(Y == lab)[0], :]`: the rows of `M` whose aligned label is `lab`. -/
def selectRows (Y : List ℚ) (M : Mat) (lab : ℚ) : Mat :=
  ((Y.zip M).filter (fun p => p.1 == lab)).map (fun p => p.2)

/-- `MvGaussian._fit_boxcox`: per column, fit boxcox on `column + EPS`,
store `n_feats` and the fitted `lmbda` vector, and return the transformed
matrix (reassembled column-wise). -/
def MvGaussian.fitBoxcox (K : MvKernels) (c : MvGaussian) (X : Mat) :
    MvGaussian × Mat :=
  let n := nFeats X
  let fitted := (List.range n).map (fun i => K.bcFit ((col X i).map (fun x => x + EPS)))
  let lam := fitted.map (fun pr => pr.2)
  let Xb := (List.range X.length).map (fun j => fitted.map (fun pr => pr.1.getD j 0))
  ({ c with n_feats := some n, lmbda := some lam }, Xb)

/-- `MvGaussian.fit`: boxcox-transform the features, split rows by label,
fit one multivariate gaussian (mean and covariance, singular allowed) per
class, and store both frozen pdfs. -/
def MvGaussian.fit (K : MvKernels) (c : MvGaussian) (X : Mat) (Y : List ℚ) :
    MvGaussian :=
  let fb := MvGaussian.fitBoxcox K c X
  let pos := selectRows Y fb.2 1
  let neg := selectRows Y fb.2 0
  { fb.1 with
    rv_pos := some (K.mvnPdf (meanCols pos) (covCols pos)),
    rv_neg := some (K.mvnPdf (meanCols neg) (covCols neg)) }

/-- `MvGaussian._transform`: apply boxcox with the stored lambda to
`column + EPS`, for each of the stored `n_feats` columns; no refit. -/
def mvTransform (K : MvKernels) (n : ℕ) (lam : List ℚ) (X : Mat) : Mat :=
  X.map (fun r => (List.range n).map (fun i => K.bcApply (lam.getD i 0) (r.getD i 0 + EPS)))

/-- `MvGaussian.predict`: guard on `rv_pos is None`, transform with the
frozen parameters, evaluate both class pdfs, and apply the masked ratio
assignments.  (If `rv_pos` were set but the other fields were still
`None` — a state unreachable through `fit` — the Python code would fail on
the `None` attribute access, modelled as an `attributeError`.) -/
def MvGaussian.predict (K : MvKernels) (c : MvGaussian) (X : Mat) :
    Except PyErr (MvGaussian × List ℚ) :=
  match c.rv_pos with
  | none => .error (.referenceError "fit must be called before predict can be called")
  | some f =>
    match c.rv_neg, c.n_feats, c.lmbda with
    | some g, some n, some lam =>
      let T := mvTransform K n lam X
      .ok (c, List.zipWith ratioStep (T.map f) (T.map g))
    | _, _, _ => .error (.attributeError "NoneType")

/-- A fitted sklearn estimator, reduced to the two query methods the
repository calls: `predict_proba` and `predict`. -/
structure Estimator where
  predict_proba : Mat → Mat
  predictClasses : Mat → List ℚ

/-- Constructor arguments of `RandomForest.__init__`. -/
structure RFParams where
  n_estimators : ℤ
  n_jobs : ℤ
  class_weight : String
  n_iter_search : ℤ
  random_state : Option ℤ
 deriving DecidableEq

/-- Mutable state of a `RandomForest` instance: the constructor parameters
(never reassigned) and the fitted `clf`. -/
structure RandomForest where
  params : RFParams
  clf : Option Estimator

/-- `RandomForest.__init__`: stores the parameters and sets `clf = None`. -/
def RandomForest.mkNew (p : RFParams) : RandomForest := ⟨p, none⟩

/-- Numeric kernels from sklearn used by `RandomForest.fit`:
`shuffleXY seed X Y` models `sklearn.utils.shuffle(X, Y, random_state=seed)`;
`searchBest params X Y` models the whole `RandomizedSearchCV` run over the
fixed `param_dist` (max_depth 1..100, max_features, min_samples_split,
min_samples_leaf, bootstrap, criterion), returning `best_estimator_`.
Both are deterministic given the seed carried in the parameters. -/
structure RFKernels where
  shuffleXY : Option ℤ → Mat → List ℚ → Mat × List ℚ
  searchBest : RFParams → Mat → List ℚ → Estimator

/-- `RandomForest.fit`: shuffle, run the randomized search, keep only the
best estimator in `clf`. -/
def RandomForest.fit (K : RFKernels) (c : RandomForest) (X : Mat) (Y : List ℚ) :
    RandomForest :=
  let sh := K.shuffleXY c.params.random_state X Y
  { c with clf := some (K.searchBest c.params sh.1 sh.2) }

/-- `RandomForest.predict`: guard on `clf is None`, then
`clf.predict_proba(X)[:, 1]`. -/
def RandomForest.predict (c : RandomForest) (X : Mat) :
    Except PyErr (RandomForest × List ℚ) :=
  match c.clf with
  | none => .error (.referenceError "fit must be called before predict can be called")
  | some est => .ok (c, (est.predict_proba X).map (fun row => row.getD 1 0))

/-- `RandomForest.predict_discrete_label`: guard on `clf is None`, then
`clf.predict(X)` (the estimator's direct class prediction). -/
def RandomForest.predict_discrete_label (c : RandomForest) (X : Mat) :
    Except PyErr (RandomForest × List ℚ) :=
  match c.clf with
  | none => .error (.referenceError "fit must be called before predict can be called")
  | some est => .ok (c, est.predictClasses X)

/-- Modelled from the spec: the external collaborators consumed by the
orchestrator (`core.py` is not under src).  `compute_contours` is the
contour-extractor contract, `compute_labels` the Contour contract
(label vector plus metadata), `compute_all` the feature-extractor
matrix contract.  `γ` is the opaque Contour type, `α` the annotation
type, `δ` the metadata type. -/
structure Env (γ α δ : Type) where
  compute_contours : String → γ
  compute_labels : γ → α → List ℚ × δ
  compute_all : γ → Mat

/-- A metric dictionary as returned by the classifier's `score`. -/
abbrev ScoreDict := List (String × ℚ)

/-- Modelled from the spec: the classifier contract from `core.py` (not
under src), as the orchestrator consumes it.  Methods are state-passing:
`fit` returns the updated instance state, `predict` returns the (possibly
unchanged) state and the score vector or raises, `score` is the base-class
metric computation, which may raise (e.g. `ValueError` on degenerate label
distributions) and does not touch classifier state. -/
structure ClassifierI (σ : Type) where
  fit : σ → Mat → List ℚ → σ
  predict : σ → Mat → Except PyErr (σ × List ℚ)
  threshold : ℚ
  score : List ℚ → List ℚ → Option (List ℚ) → Except PyErr ScoreDict

/-- The loop body of `process_with_labels` for one `(audio_filepath,
annot)` pair, label component: `ctr.compute_labels(annot)[0]`. -/
def fileLabels {γ α δ : Type} (env : Env γ α δ) (pr : String × α) : List ℚ :=
  (env.compute_labels (env.compute_contours pr.1) pr.2).1

/-- The loop body of `process_with_labels` for one pair, feature
component: `feature_extractor.compute_all(ctr)`. -/
def fileFeats {γ α δ : Type} (env : Env γ α δ) (pr : String × α) : Mat :=
  env.compute_all (env.compute_contours pr.1)

/-- Sum of the per-pair label-vector lengths. -/
def labelLenSum {γ α δ : Type} (env : Env γ α δ) (pairs : List (String × α)) : ℕ :=
  (pairs.map (fun pr => (fileLabels env pr).length)).sum

/-- `process_with_labels`: per pair extract the contour, compute labels
and features, then `np.concatenate` the feature matrices row-wise and the
label vectors.  `np.concatenate` of an empty list raises `ValueError`. -/
def process_with_labels {γ α δ : Type} (env : Env γ α δ)
    (pairs : List (String × α)) : Except PyErr (Mat × List ℚ × List γ) :=
  if pairs.isEmpty then
    .error (.valueError "need at least one array to concatenate")
  else
    .ok ((pairs.map (fun pr => fileFeats env pr)).flatten,
         (pairs.map (fun pr => fileLabels env pr)).flatten,
         pairs.map (fun pr => env.compute_contours pr.1))

/-- The score vector `predict` yields on `X` from state `s` (empty if it
raises); used only to phrase theorems about successful runs. -/
def predScores {σ : Type} (clf : ClassifierI σ) (s : σ) (X : Mat) : List ℚ :=
  match clf.predict s X with
  | .ok r => r.2
  | .error _ => []

/-- `process_audio_only`: for each audio file in order, extract the
contour, compute its features, predict scores, and append the triple.
The classifier state is threaded; a raise aborts the loop. -/
def process_audio_only {σ γ α δ : Type} (env : Env γ α δ) (clf : ClassifierI σ)
    (s : σ) (files : List String) : σ × Except PyErr (List (γ × Mat × List ℚ)) :=
  match files with
  | [] => (s, .ok [])
  | fp :: rest =>
    match clf.predict s (env.compute_all (env.compute_contours fp)) with
    | .error e => (s, .error e)
    | .ok (s1, Y) =>
      match process_audio_only env clf s1 rest with
      | (s2, .error e) => (s2, .error e)
      | (s2, .ok tl) =>
        (s2, .ok ((env.compute_contours fp, env.compute_all (env.compute_contours fp), Y) :: tl))

/-- The `training_pairs` branch of `process`: build the global matrices,
`fit`, predict on the training matrix, discretize at the threshold, and
score with `y_prob` — the `score` call is NOT wrapped in a `try`. -/
def trainingPath {σ γ α δ : Type} (env : Env γ α δ) (clf : ClassifierI σ)
    (s : σ) (tp : List (String × α)) : σ × Except PyErr (ScoreDict × List γ) :=
  match process_with_labels env tp with
  | .error e => (s, .error e)
  | .ok (X, Y, ctrs) =>
    let s1 := clf.fit s X Y
    match clf.predict s1 X with
    | .error e => (s1, .error e)
    | .ok (s2, Yprob) =>
      let Ypred := Yprob.map (fun p => if clf.threshold ≤ p then (1 : ℚ) else 0)
      match clf.score Ypred Y (some Yprob) with
      | .error e => (s2, .error e)
      | .ok sc => (s2, .ok (sc, ctrs))

/-- The `testing_pairs` branch of `process`: build the matrices, predict,
and score inside `try: ... except ValueError: test_scores = {}` — only
`ValueError` is caught; other exceptions propagate. -/
def testingPath {σ γ α δ : Type} (env : Env γ α δ) (clf : ClassifierI σ)
    (s : σ) (te : List (String × α)) : σ × Except PyErr (ScoreDict × List γ) :=
  match process_with_labels env te with
  | .error e => (s, .error e)
  | .ok (X, Y, ctrs) =>
    match clf.predict s X with
    | .error e => (s, .error e)
    | .ok (s1, Ypred) =>
      match clf.score Ypred Y none with
      | .ok sc => (s1, .ok (sc, ctrs))
      | .error (.valueError _) => (s1, .ok ([], ctrs))
      | .error e => (s1, .error e)

/-- The final `return (train_scores, test_scores, train_contours,
test_contours, contour_list)` of `process`: each local is bound only if
its branch ran; referencing an unbound local raises `UnboundLocalError`,
left to right through the tuple. -/
def assembleReturn {γ : Type} (tr te : Option ScoreDict)
    (trc tec : Option (List γ)) (cl : Option (List (γ × Mat × List ℚ))) :
    Except PyErr (ScoreDict × ScoreDict × List γ × List γ × List (γ × Mat × List ℚ)) :=
  match tr with
  | none => .error (.unboundLocal "train_scores")
  | some a =>
    match te with
    | none => .error (.unboundLocal "test_scores")
    | some b =>
      match trc with
      | none => .error (.unboundLocal "train_contours")
      | some c =>
        match tec with
        | none => .error (.unboundLocal "test_contours")
        | some d =>
          match cl with
          | none => .error (.unboundLocal "contour_list")
          | some e => .ok (a, b, c, d, e)

/-- `process` after the training and testing branches: the optional
`audio_files` branch, then the return statement. -/
def processStage3 {σ γ α δ : Type} (env : Env γ α δ) (clf : ClassifierI σ)
    (s : σ) (audioFiles : Option (List String))
    (trRes teRes : Option (ScoreDict × List γ)) :
    σ × Except PyErr (ScoreDict × ScoreDict × List γ × List γ × List (γ × Mat × List ℚ)) :=
  match audioFiles with
  | none =>
    (s, assembleReturn (trRes.map (fun r => r.1)) (teRes.map (fun r => r.1))
        (trRes.map (fun r => r.2)) (teRes.map (fun r => r.2)) none)
  | some files =>
    match process_audio_only env clf s files with
    | (s1, .error e) => (s1, .error e)
    | (s1, .ok cl) =>
      (s1, assembleReturn (trRes.map (fun r => r.1)) (teRes.map (fun r => r.1))
          (trRes.map (fun r => r.2)) (teRes.map (fun r => r.2)) (some cl))

/-- `process` after the training branch: the optional testing branch. -/
def processStage2 {σ γ α δ : Type} (env : Env γ α δ) (clf : ClassifierI σ)
    (s : σ) (audioFiles : Option (List String))
    (testingPairs : Option (List (String × α)))
    (trRes : Option (ScoreDict × List γ)) :
    σ × Except PyErr (ScoreDict × ScoreDict × List γ × List γ × List (γ × Mat × List ℚ)) :=
  match testingPairs with
  | none => processStage3 env clf s audioFiles trRes none
  | some te =>
    match testingPath env clf s te with
    | (s1, .error e) => (s1, .error e)
    | (s1, .ok r) => processStage3 env clf s1 audioFiles trRes (some r)

/-- `process` from run.py.  The three `get_*_module` calls at its top
resolve registry entries from `core.py` (not under src); the resolved
extractor/feature modules are carried in `env` and the resolved classifier
in `clf` with initial state `s0`; registry lookup itself is modelled
separately by `get_module` below.  The result pairs the final classifier
state with the returned tuple or the raised exception. -/
def process {σ γ α δ : Type} (env : Env γ α δ) (clf : ClassifierI σ) (s0 : σ)
    (audioFiles : Option (List String))
    (trainingPairs testingPairs : Option (List (String × α))) :
    σ × Except PyErr (ScoreDict × ScoreDict × List γ × List γ × List (γ × Mat × List ℚ)) :=
  match trainingPairs with
  | none => processStage2 env clf s0 audioFiles testingPairs none
  | some tp =>
    match trainingPath env clf s0 tp with
    | (s1, .error e) => (s1, .error e)
    | (s1, .ok r) => processStage2 env clf s1 audioFiles testingPairs (some r)

/-- A constructed Python object, identified for the purpose of object
identity by an allocation tag (each construction uses the next tag) and
its class name. -/
structure PyObj where
  tag : ℕ
  cls : String
 deriving DecidableEq

/-- A registry entry: a zero-argument constructor.  It consumes the
allocation counter and yields the new object and the next counter, or
raises (a constructor may itself raise, e.g. `KeyError`). -/
abbrev Factory := ℕ → Except PyErr (PyObj × ℕ)

/-- Modelled from the spec: registry entries in `core.py` (not under src)
are classes; calling one allocates a fresh instance, so the factory for
class `cls` returns the object tagged with the current counter and bumps
the counter. -/
def mkFactory (cls : String) : Factory := fun n => .ok (⟨n, cls⟩, n + 1)

/-- `get_module` from run.py: `None` identifier returns no module; the
`try` block wraps `module_registry[module_id]()` — both the dict lookup
and the factory call — and any `KeyError` from it is replaced by
`RuntimeError("Algorithm %s can not be found in motif!" % module_id)`;
other exceptions propagate. -/
def get_module (module_id : Option String) (registry : String → Option Factory)
    (n : ℕ) : Except PyErr (Option PyObj × ℕ) :=
  match module_id with
  | none => .ok (none, n)
  | some mid =>
    match registry mid with
    | none => .error (.runtimeError ("Algorithm " ++ mid ++ " can not be found in motif!"))
    | some f =>
      match f n with
      | .ok (inst, n1) => .ok (some inst, n1)
      | .error (.keyError _) =>
        .error (.runtimeError ("Algorithm " ++ mid ++ " can not be found in motif!"))
      | .error e => .error e

/-! Concrete fixtures used by the witness theorems below. -/

/-- Concrete scipy kernels: boxcox acts as the identity transform. -/
def mvKW : MvKernels := ⟨fun l => (l, 1), fun _ x => x, fun _ _ v => v.sum⟩

/-- A concrete fitted `MvGaussian` state with nonnegative class pdfs. -/
def mvCW : MvGaussian :=
  ⟨some (fun _ => 2), some (fun _ => 1), some 1, some [0]⟩

/-- A concrete fitted estimator. -/
def estW : Estimator := ⟨fun X => X.map (fun _ => [0, 1]), fun X => X.map (fun _ => 1)⟩

/-- Concrete `RandomForest` constructor arguments (the defaults, seeded). -/
def rfPW : RFParams := ⟨50, -1, "balanced", 100, some 0⟩

/-- Concrete sklearn kernels: shuffle is the identity, the search always
returns `estW`. -/
def rfKW : RFKernels := ⟨fun _ X Y => (X, Y), fun _ _ _ => estW⟩

/-- A concrete fitted `RandomForest` state. -/
def rfFW : RandomForest := ⟨rfPW, some estW⟩

/-- A concrete environment: every file yields contour `0`, whose label
vector is `[1]` and whose feature matrix is the single row `[1]`. -/
def envW : Env ℕ ℕ ℕ := ⟨fun _ => 0, fun _ _ => ([1], 0), fun _ => [[1]]⟩

/-- A concrete classifier whose operations all succeed. -/
def clfW : ClassifierI Unit :=
  ⟨fun _ _ _ => (), fun s X => .ok (s, X.map (fun _ => 1)), 1, fun _ _ _ => .ok []⟩

/-- A concrete classifier whose `score` raises `ValueError` exactly on the
testing-style call (no `y_prob` argument). -/
def clfVW : ClassifierI Unit :=
  ⟨fun _ _ _ => (), fun s X => .ok (s, X.map (fun _ => 1)), 1,
   fun _ _ yprob =>
     match yprob with
     | some _ => .ok []
     | none => .error (.valueError "degenerate")⟩

/-- A concrete classifier whose `score` always raises `ValueError`. -/
def clfTW : ClassifierI Unit :=
  ⟨fun _ _ _ => (), fun s X => .ok (s, X.map (fun _ => 1)), 1,
   fun _ _ _ => .error (.valueError "bad")⟩

/-- A concrete registry where every identifier is registered to the
`mv_gaussian` class. -/
def regSomeW : String → Option Factory := fun _ => some (mkFactory "mv_gaussian")

/-- A concrete empty registry. -/
def regNoneW : String → Option Factory := fun _ => none

/-- A factory that raises `KeyError` during construction. -/
def badFactory : Factory := fun _ => .error (.keyError "boom")

/-- A concrete registry whose registered factory raises `KeyError`. -/
def regBadW : String → Option Factory := fun _ => some badFactory

/-! Theorems. -/

/-- The masked-assignment sequence of `predict` computes exactly the
per-sample policy the spec describes. -/
theorem ratioStep_eq_spec (num denom : ℚ) :
    ratioStep num denom = scorePolicySpec num denom := by
  unfold ratioStep scorePolicySpec
  by_cases hn : num = 0
  · by_cases hd : denom = 0 <;> simp [hn, hd, MAX_SCORE] <;> norm_num
  · by_cases hd : denom = 0
    · simp [hn, hd, MAX_SCORE]
    · simp only [hn, hd, if_false, if_true, ne_eq, not_false_eq_true, if_neg, if_pos]
      rw [min_def]
      split_ifs with h1 h2 <;> first | rfl | linarith

/-- For nonnegative density values the per-sample score lies in
`[0, MAX_SCORE]`. -/
theorem ratioStep_bounds (num denom : ℚ) (h1 : 0 ≤ num) (h2 : 0 ≤ denom) :
    0 ≤ ratioStep num denom ∧ ratioStep num denom ≤ MAX_SCORE := by
  unfold ratioStep
  have hms : (0 : ℚ) ≤ MAX_SCORE := by norm_num [MAX_SCORE]
  by_cases hn : num = 0
  · simp only [hn, if_pos rfl]
    split_ifs <;> constructor <;> first | exact hms | norm_num | linarith
  · by_cases hd : denom = 0
    · simp only [hd, hn, ne_eq, not_true_eq_false, if_false, if_neg hn]
      split_ifs <;> constructor <;> first | exact hms | linarith
    · have hq : 0 ≤ num / denom := div_nonneg h1 h2
      simp only [hd, ne_eq, not_false_eq_true, if_true, if_neg hn, if_pos]
      split_ifs <;> constructor <;> first | exact hms | linarith

/-- Bound transfer to whole score vectors. -/
theorem zipWith_ratioStep_bounds (nums denoms : List ℚ)
    (hn : ∀ a ∈ nums, 0 ≤ a) (hd : ∀ b ∈ denoms, 0 ≤ b) :
    ∀ q ∈ List.zipWith ratioStep nums denoms, 0 ≤ q ∧ q ≤ MAX_SCORE := by
  induction nums generalizing denoms with
  | nil => simp
  | cons a tl ih =>
    cases denoms with
    | nil => simp
    | cons b bt =>
      intro q hq
      simp only [List.zipWith_cons_cons, List.mem_cons] at hq
      rcases hq with h | h
      · subst h
        exact ratioStep_bounds a b (hn a (by simp)) (hd b (by simp))
      · exact ih bt (fun x hx => hn x (by simp [hx])) (fun x hx => hd x (by simp [hx])) q h

/-- Claim C1: for every fitted `MvGaussian` and input matrix, `predict`
scores each sample by the spec's per-sample policy — numerator zero
dominates and yields `0.0`, a zero denominator with nonzero numerator
yields `MAX_SCORE`, otherwise the quotient clamped above at `MAX_SCORE` —
and, the class densities being nonnegative, every returned score lies in
`[0, MAX_SCORE]`. -/
theorem mv_predict_score_policy {K : MvKernels} {c : MvGaussian} {X : Mat}
    {c' : MvGaussian} {p : List ℚ}
    (hpos : ∀ f, c.rv_pos = some f → ∀ v, 0 ≤ f v)
    (hneg : ∀ g, c.rv_neg = some g → ∀ v, 0 ≤ g v)
    (h : MvGaussian.predict K c X = .ok (c', p)) :
    (∃ f g n lam, c.rv_pos = some f ∧ c.rv_neg = some g ∧
      c.n_feats = some n ∧ c.lmbda = some lam ∧
      p = List.zipWith scorePolicySpec ((mvTransform K n lam X).map f)
            ((mvTransform K n lam X).map g)) ∧
    ∀ q ∈ p, 0 ≤ q ∧ q ≤ MAX_SCORE := by
  obtain ⟨rp, rn, nf, lm⟩ := c
  cases rp with
  | none => simp [MvGaussian.predict] at h
  | some f =>
    cases rn with
    | none => simp [MvGaussian.predict] at h
    | some g =>
      cases nf with
      | none => simp [MvGaussian.predict] at h
      | some n =>
        cases lm with
        | none => simp [MvGaussian.predict] at h
        | some lam =>
          simp only [MvGaussian.predict, Except.ok.injEq, Prod.mk.injEq] at h
          obtain ⟨hc, hp⟩ := h
          have hrs : ratioStep = scorePolicySpec :=
            funext fun a => funext fun b => ratioStep_eq_spec a b
          refine ⟨⟨f, g, n, lam, rfl, rfl, rfl, rfl, by rw [← hp, ← hrs]⟩, ?_⟩
          rw [← hp]
          refine zipWith_ratioStep_bounds _ _ ?_ ?_
          · intro a ha
            obtain ⟨t, _, rfl⟩ := List.mem_map.mp ha
            exact hpos f rfl t
          · intro b hb
            obtain ⟨t, _, rfl⟩ := List.mem_map.mp hb
            exact hneg g rfl t

/-- Witness for C1 at a concrete fitted state and input. -/
theorem mv_predict_score_policy_witness :
    ((∀ f, mvCW.rv_pos = some f → ∀ v, 0 ≤ f v) ∧
     (∀ g, mvCW.rv_neg = some g → ∀ v, 0 ≤ g v) ∧
     MvGaussian.predict mvKW mvCW [[3]] = .ok (mvCW, [2])) ∧
    ((∃ f g n lam, mvCW.rv_pos = some f ∧ mvCW.rv_neg = some g ∧
       mvCW.n_feats = some n ∧ mvCW.lmbda = some lam ∧
       [(2 : ℚ)] = List.zipWith scorePolicySpec
         ((mvTransform mvKW n lam [[3]]).map f)
         ((mvTransform mvKW n lam [[3]]).map g)) ∧
     ∀ q ∈ [(2 : ℚ)], 0 ≤ q ∧ q ≤ MAX_SCORE) := by
  have hpos : ∀ f, mvCW.rv_pos = some f → ∀ v, 0 ≤ f v := by
    intro f hf v
    have : (fun (_ : List ℚ) => (2 : ℚ)) = f := Option.some.inj hf
    rw [← this]
    norm_num
  have hneg : ∀ g, mvCW.rv_neg = some g → ∀ v, 0 ≤ g v := by
    intro g hg v
    have : (fun (_ : List ℚ) => (1 : ℚ)) = g := Option.some.inj hg
    rw [← this]
    norm_num
  have hpred : MvGaussian.predict mvKW mvCW [[3]] = .ok (mvCW, [2]) := by
    simp [MvGaussian.predict, mvCW, mvKW, mvTransform, ratioStep, EPS, MAX_SCORE]
    norm_num
  exact ⟨⟨hpos, hneg, hpred⟩, mv_predict_score_policy hpos hneg hpred⟩

/-- Claim C5: on an unfitted instance every predict-family operation
(`MvGaussian.predict`, `RandomForest.predict`,
`RandomForest.predict_discrete_label`) raises the distinct "not fitted"
`ReferenceError` rather than returning a default result, and after `fit`
none of them raises it (they return normally). -/
theorem classifiers_not_fitted_guard :
    (∀ (K : MvKernels) (c : MvGaussian) (X : Mat), c.rv_pos = none →
      MvGaussian.predict K c X =
        .error (.referenceError "fit must be called before predict can be called")) ∧
    (∀ (K : MvKernels) (c : MvGaussian) (X : Mat) (Y : List ℚ) (X2 : Mat),
      ∃ r, MvGaussian.predict K (MvGaussian.fit K c X Y) X2 = .ok r) ∧
    (∀ (c : RandomForest) (X : Mat), c.clf = none →
      RandomForest.predict c X =
        .error (.referenceError "fit must be called before predict can be called")) ∧
    (∀ (c : RandomForest) (X : Mat), c.clf = none →
      RandomForest.predict_discrete_label c X =
        .error (.referenceError "fit must be called before predict can be called")) ∧
    (∀ (K : RFKernels) (c : RandomForest) (X : Mat) (Y : List ℚ) (X2 : Mat),
      ∃ r, RandomForest.predict (RandomForest.fit K c X Y) X2 = .ok r) ∧
    (∀ (K : RFKernels) (c : RandomForest) (X : Mat) (Y : List ℚ) (X2 : Mat),
      ∃ r, RandomForest.predict_discrete_label (RandomForest.fit K c X Y) X2 = .ok r) := by
  refine ⟨?_, ?_, ?_, ?_, ?_, ?_⟩
  · intro K c X h
    obtain ⟨rp, rn, nf, lm⟩ := c
    cases h
    rfl
  · intro K c X Y X2
    obtain ⟨rp, rn, nf, lm⟩ := c
    exact ⟨_, rfl⟩
  · intro c X h
    obtain ⟨p, cf⟩ := c
    cases h
    rfl
  · intro c X h
    obtain ⟨p, cf⟩ := c
    cases h
    rfl
  · intro K c X Y X2
    obtain ⟨p, cf⟩ := c
    exact ⟨_, rfl⟩
  · intro K c X Y X2
    obtain ⟨p, cf⟩ := c
    exact ⟨_, rfl⟩

/-- Witness for C5 at concrete unfitted and fitted instances. -/
theorem classifiers_not_fitted_guard_witness :
    (MvGaussian.init.rv_pos = none ∧
     MvGaussian.predict mvKW MvGaussian.init [[1]] =
       .error (.referenceError "fit must be called before predict can be called")) ∧
    (∃ r, MvGaussian.predict mvKW
        (MvGaussian.fit mvKW MvGaussian.init [[1]] [1]) [[1]] = .ok r) ∧
    ((RandomForest.mkNew rfPW).clf = none ∧
     RandomForest.predict (RandomForest.mkNew rfPW) [[1]] =
       .error (.referenceError "fit must be called before predict can be called")) ∧
    (RandomForest.predict_discrete_label (RandomForest.mkNew rfPW) [[1]] =
       .error (.referenceError "fit must be called before predict can be called")) ∧
    (∃ r, RandomForest.predict
        (RandomForest.fit rfKW (RandomForest.mkNew rfPW) [[1]] [1]) [[1]] = .ok r) ∧
    (∃ r, RandomForest.predict_discrete_label
        (RandomForest.fit rfKW (RandomForest.mkNew rfPW) [[1]] [1]) [[1]] = .ok r) := by
  refine ⟨⟨rfl, ?_⟩, ?_, ⟨rfl, ?_⟩, ?_, ?_, ?_⟩
  · exact classifiers_not_fitted_guard.1 mvKW MvGaussian.init [[1]] rfl
  · exact classifiers_not_fitted_guard.2.1 mvKW MvGaussian.init [[1]] [1] [[1]]
  · exact classifiers_not_fitted_guard.2.2.1 (RandomForest.mkNew rfPW) [[1]] rfl
  · exact classifiers_not_fitted_guard.2.2.2.1 (RandomForest.mkNew rfPW) [[1]] rfl
  · exact classifiers_not_fitted_guard.2.2.2.2.1 rfKW (RandomForest.mkNew rfPW) [[1]] [1] [[1]]
  · exact classifiers_not_fitted_guard.2.2.2.2.2 rfKW (RandomForest.mkNew rfPW) [[1]] [1] [[1]]

/-- Claim C7: after a `fit`, `predict` leaves the fitted state unchanged
(`lmbda`, `n_feats`, `rv_pos`, `rv_neg` for `MvGaussian`; `clf` for
`RandomForest`), a second `predict` on the state after the first returns
the identical score vector, and `MvGaussian.predict` never refits: it
depends only on the stored parameters and the `bcApply` kernel, not on
the `bcFit` fitting kernel. -/
theorem predict_frame_no_refit :
    (∀ (K : MvKernels) (c : MvGaussian) (X : Mat) (c2 : MvGaussian) (p : List ℚ),
      MvGaussian.predict K c X = .ok (c2, p) →
      c2 = c ∧ MvGaussian.predict K c2 X = .ok (c2, p)) ∧
    (∀ (K K2 : MvKernels) (c : MvGaussian) (X : Mat), K.bcApply = K2.bcApply →
      MvGaussian.predict K c X = MvGaussian.predict K2 c X) ∧
    (∀ (c : RandomForest) (X : Mat) (c2 : RandomForest) (p : List ℚ),
      RandomForest.predict c X = .ok (c2, p) →
      c2 = c ∧ RandomForest.predict c2 X = .ok (c2, p)) := by
  refine ⟨?_, ?_, ?_⟩
  · intro K c X c2 p h
    obtain ⟨rp, rn, nf, lm⟩ := c
    cases rp with
    | none => simp [MvGaussian.predict] at h
    | some f =>
      cases rn with
      | none => simp [MvGaussian.predict] at h
      | some g =>
        cases nf with
        | none => simp [MvGaussian.predict] at h
        | some n =>
          cases lm with
          | none => simp [MvGaussian.predict] at h
          | some lam =>
            simp only [MvGaussian.predict, Except.ok.injEq, Prod.mk.injEq] at h
            obtain ⟨hc, hp⟩ := h
            subst hc
            subst hp
            exact ⟨rfl, rfl⟩
  · intro K K2 c X h
    obtain ⟨rp, rn, nf, lm⟩ := c
    cases rp with
    | none => rfl
    | some f =>
      cases rn with
      | none => rfl
      | some g =>
        cases nf with
        | none => rfl
        | some n =>
          cases lm with
          | none => rfl
          | some lam => simp [MvGaussian.predict, mvTransform, h]
  · intro c X c2 p h
    obtain ⟨pa, cf⟩ := c
    cases cf with
    | none => simp [RandomForest.predict] at h
    | some est =>
      simp only [RandomForest.predict, Except.ok.injEq, Prod.mk.injEq] at h
      obtain ⟨hc, hp⟩ := h
      subst hc
      subst hp
      exact ⟨rfl, rfl⟩

/-- Witness for C7 at concrete fitted states. -/
theorem predict_frame_no_refit_witness :
    (MvGaussian.predict mvKW mvCW [[3]] = .ok (mvCW, [2]) ∧
     (mvCW = mvCW ∧ MvGaussian.predict mvKW mvCW [[3]] = .ok (mvCW, [2]))) ∧
    (mvKW.bcApply = mvKW.bcApply ∧
     MvGaussian.predict mvKW mvCW [[3]] = MvGaussian.predict mvKW mvCW [[3]]) ∧
    (RandomForest.predict rfFW [[5]] = .ok (rfFW, [1]) ∧
     (rfFW = rfFW ∧ RandomForest.predict rfFW [[5]] = .ok (rfFW, [1]))) := by
  have hpred : MvGaussian.predict mvKW mvCW [[3]] = .ok (mvCW, [2]) := by
    simp [MvGaussian.predict, mvCW, mvKW, mvTransform, ratioStep, EPS, MAX_SCORE]
    norm_num
  have hrf : RandomForest.predict rfFW [[5]] = .ok (rfFW, [1]) := by
    simp [RandomForest.predict, rfFW, estW]
  exact ⟨⟨hpred, predict_frame_no_refit.1 mvKW mvCW [[3]] mvCW [2] hpred⟩,
         ⟨rfl, predict_frame_no_refit.2.1 mvKW mvKW mvCW [[3]] rfl⟩,
         ⟨hrf, predict_frame_no_refit.2.2 rfFW [[5]] rfFW [1] hrf⟩⟩

/-- Claim C8: `fit` fully replaces prior fitted state: fitting twice
leaves exactly the state a freshly constructed classifier (same
constructor arguments, hence the same random seed) would hold after a
single `fit` with the second data set. -/
theorem fit_replaces_state :
    (∀ (K : MvKernels) (c : MvGaussian) (X1 : Mat) (Y1 : List ℚ)
        (X2 : Mat) (Y2 : List ℚ),
      MvGaussian.fit K (MvGaussian.fit K c X1 Y1) X2 Y2 =
        MvGaussian.fit K MvGaussian.init X2 Y2) ∧
    (∀ (K : RFKernels) (c : RandomForest) (X1 : Mat) (Y1 : List ℚ)
        (X2 : Mat) (Y2 : List ℚ),
      RandomForest.fit K (RandomForest.fit K c X1 Y1) X2 Y2 =
        RandomForest.fit K (RandomForest.mkNew c.params) X2 Y2) := by
  constructor
  · intro K c X1 Y1 X2 Y2
    obtain ⟨rp, rn, nf, lm⟩ := c
    rfl
  · intro K c X1 Y1 X2 Y2
    obtain ⟨p, cf⟩ := c
    rfl

/-- Claim C6: `get_module` with `None` returns no module and leaves the
allocation counter alone; with an unregistered identifier it raises the
"algorithm not found" `RuntimeError` whose message names that identifier;
with a registered class it returns the freshly allocated instance (tagged
with the current counter), whose tag differs from the tag of every
previously constructed instance — never a shared singleton. -/
theorem get_module_lookup :
    (∀ (reg : String → Option Factory) (n : ℕ),
      get_module none reg n = .ok (none, n)) ∧
    (∀ (reg : String → Option Factory) (mid : String) (n : ℕ), reg mid = none →
      get_module (some mid) reg n =
        .error (.runtimeError ("Algorithm " ++ mid ++ " can not be found in motif!"))) ∧
    (∀ (reg : String → Option Factory) (mid : String) (n : ℕ),
      reg mid = some (mkFactory mid) →
      get_module (some mid) reg n = .ok (some ⟨n, mid⟩, n + 1) ∧
      ∀ m : ℕ, m < n → (⟨n, mid⟩ : PyObj).tag ≠ m) := by
  refine ⟨fun reg n => rfl, ?_, ?_⟩
  · intro reg mid n h
    simp [get_module, h]
  · intro reg mid n h
    refine ⟨by simp [get_module, h, mkFactory], ?_⟩
    intro m hm heq
    exact absurd heq.symm (Nat.ne_of_lt hm)

/-- Witness for C6 on concrete registries with counter `3`. -/
theorem get_module_lookup_witness :
    (get_module none regNoneW 3 = .ok (none, 3)) ∧
    (regNoneW "salamon" = none ∧
     get_module (some "salamon") regNoneW 3 =
       .error (.runtimeError ("Algorithm " ++ "salamon" ++ " can not be found in motif!"))) ∧
    (regSomeW "mv_gaussian" = some (mkFactory "mv_gaussian") ∧
     (get_module (some "mv_gaussian") regSomeW 3 = .ok (some ⟨3, "mv_gaussian"⟩, 3 + 1) ∧
      ∀ m : ℕ, m < 3 → (⟨3, "mv_gaussian"⟩ : PyObj).tag ≠ m)) := by
  exact ⟨get_module_lookup.1 regNoneW 3,
         ⟨rfl, get_module_lookup.2.1 regNoneW "salamon" 3 rfl⟩,
         ⟨rfl, get_module_lookup.2.2 regSomeW "mv_gaussian" 3 rfl⟩⟩

/-- Claim C10: the `try` in `get_module` wraps the zero-argument factory
call itself, not only the dictionary lookup: a registered factory that
raises `KeyError` during construction is reported as the "algorithm not
found" `RuntimeError` naming the (valid, registered) identifier, instead
of propagating the factory's own failure. -/
theorem get_module_wraps_factory_keyerror :
    ∀ (reg : String → Option Factory) (mid : String) (f : Factory) (n : ℕ)
      (msg : String),
      reg mid = some f → f n = .error (.keyError msg) →
      get_module (some mid) reg n =
        .error (.runtimeError ("Algorithm " ++ mid ++ " can not be found in motif!")) := by
  intro reg mid f n msg h1 h2
  simp [get_module, h1, h2]

/-- Witness for C10 on a concrete registry whose factory raises `KeyError`. -/
theorem get_module_wraps_factory_keyerror_witness :
    regBadW "mv_gaussian" = some badFactory ∧
    badFactory 7 = .error (.keyError "boom") ∧
    get_module (some "mv_gaussian") regBadW 7 =
      .error (.runtimeError ("Algorithm " ++ "mv_gaussian" ++ " can not be found in motif!")) :=
  ⟨rfl, rfl,
   get_module_wraps_factory_keyerror regBadW "mv_gaussian" badFactory 7 "boom" rfl rfl⟩

/-- Claim C4: on the training path the per-file feature matrices are
concatenated row-wise and the per-file label vectors concatenated into
one global matrix and vector; the global label vector's length is the sum
of the per-file label-vector lengths and, under the per-contour X/Y
alignment contract, the global matrix has that same row count (alignment
preserved); and the training branch calls `fit` exactly once, on the
concatenated data: for a classifier whose `predict` does not mutate
state, the classifier state after the whole branch is exactly
`fit s0 X Y` on the global pair. -/
theorem process_training_concat_and_single_fit :
    (∀ {γ α δ : Type} (env : Env γ α δ) (tp : List (String × α)) (X : Mat)
        (Y : List ℚ) (ctrs : List γ),
      process_with_labels env tp = .ok (X, Y, ctrs) →
      X = (tp.map (fun pr => fileFeats env pr)).flatten ∧
      Y = (tp.map (fun pr => fileLabels env pr)).flatten ∧
      Y.length = labelLenSum env tp ∧
      ((∀ (ctr : γ) (a : α),
          (env.compute_all ctr).length = (env.compute_labels ctr a).1.length) →
        X.length = labelLenSum env tp ∧ X.length = Y.length)) ∧
    (∀ {σ γ α δ : Type} (env : Env γ α δ) (clf : ClassifierI σ) (s0 : σ)
        (tp : List (String × α)) (X : Mat) (Y : List ℚ) (ctrs : List γ),
      process_with_labels env tp = .ok (X, Y, ctrs) →
      (∀ (s : σ) (M : Mat) (s2 : σ) (p : List ℚ),
        clf.predict s M = .ok (s2, p) → s2 = s) →
      (trainingPath env clf s0 tp).1 = clf.fit s0 X Y) := by
  constructor
  · intro γ α δ env tp X Y ctrs h
    rw [process_with_labels] at h
    by_cases he : tp.isEmpty
    · rw [if_pos he] at h
      exact absurd h (by simp)
    · rw [if_neg he] at h
      have h2 := Except.ok.inj h
      have hX : (tp.map (fun pr => fileFeats env pr)).flatten = X :=
        congrArg Prod.fst h2
      have hY : (tp.map (fun pr => fileLabels env pr)).flatten = Y :=
        congrArg Prod.fst (congrArg Prod.snd h2)
      subst hX
      subst hY
      have hYlen : ((tp.map fun pr => fileLabels env pr).flatten).length =
          labelLenSum env tp := by
        rw [List.length_flatten, labelLenSum, List.map_map]
        rfl
      refine ⟨rfl, rfl, hYlen, ?_⟩
      intro halign
      have hXlen : ((tp.map fun pr => fileFeats env pr).flatten).length =
          labelLenSum env tp := by
        rw [List.length_flatten, labelLenSum, List.map_map]
        have hfun : (List.length ∘ fun pr => fileFeats env pr) =
            (fun pr : String × α => (fileLabels env pr).length) :=
          funext fun pr => halign (env.compute_contours pr.1) pr.2
        rw [hfun]
      exact ⟨hXlen, by rw [hXlen, hYlen]⟩
  · intro σ γ α δ env clf s0 tp X Y ctrs h hpres
    cases h2 : clf.predict (clf.fit s0 X Y) X with
    | error e => simp [trainingPath, h, h2]
    | ok r =>
      obtain ⟨s2, prob⟩ := r
      have hs2 : s2 = clf.fit s0 X Y := hpres _ _ _ _ h2
      cases h3 : clf.score
          (prob.map fun q => if clf.threshold ≤ q then (1 : ℚ) else 0) Y (some prob) with
      | error e => simp [trainingPath, h, h2, h3, hs2]
      | ok sc => simp [trainingPath, h, h2, h3, hs2]

/-- Witness for C4 on a concrete two-file training set. -/
theorem process_training_concat_and_single_fit_witness :
    (process_with_labels envW [("a", 0), ("b", 1)] =
       .ok ([[1], [1]], [1, 1], [0, 0]) ∧
     ([[1], [1]] : Mat) = ([("a", 0), ("b", 1)].map
        (fun pr => fileFeats envW pr)).flatten ∧
     ([1, 1] : List ℚ) = ([("a", 0), ("b", 1)].map
        (fun pr => fileLabels envW pr)).flatten ∧
     ([1, 1] : List ℚ).length = labelLenSum envW [("a", 0), ("b", 1)] ∧
     ((∀ (ctr : ℕ) (a : ℕ),
         (envW.compute_all ctr).length = (envW.compute_labels ctr a).1.length) →
       ([[1], [1]] : Mat).length = labelLenSum envW [("a", 0), ("b", 1)] ∧
       ([[1], [1]] : Mat).length = ([1, 1] : List ℚ).length)) ∧
    ((∀ (s : Unit) (M : Mat) (s2 : Unit) (p : List ℚ),
        clfW.predict s M = .ok (s2, p) → s2 = s) ∧
     (trainingPath envW clfW () [("a", 0), ("b", 1)]).1 =
       clfW.fit () [[1], [1]] [1, 1]) := by
  have hpwl : process_with_labels envW [("a", 0), ("b", 1)] =
      .ok ([[1], [1]], [1, 1], [0, 0]) := by
    simp [process_with_labels, envW, fileFeats, fileLabels]
  have hpres : ∀ (s : Unit) (M : Mat) (s2 : Unit) (p : List ℚ),
      clfW.predict s M = .ok (s2, p) → s2 = s := fun _ _ _ _ _ => rfl
  refine ⟨⟨hpwl, ?_⟩, hpres, ?_⟩
  · exact process_training_concat_and_single_fit.1 envW [("a", 0), ("b", 1)]
      [[1], [1]] [1, 1] [0, 0] hpwl
  · exact process_training_concat_and_single_fit.2 envW clfW ()
      [("a", 0), ("b", 1)] [[1], [1]] [1, 1] [0, 0] hpwl hpres

/-- Claim C9: the audio-only inference loop yields exactly one
`(contour, features, predicted_scores)` triple per input file, in input
order, and performs no `fit`: for a classifier whose `predict` does not
mutate state, the classifier state after the loop equals the state
before. -/
theorem audio_inference_order_no_fit :
    ∀ {σ γ α δ : Type} (env : Env γ α δ) (clf : ClassifierI σ)
      (files : List String) (s s2 : σ) (tris : List (γ × Mat × List ℚ)),
      (∀ (t : σ) (M : Mat) (t2 : σ) (p : List ℚ),
        clf.predict t M = .ok (t2, p) → t2 = t) →
      process_audio_only env clf s files = (s2, .ok tris) →
      s2 = s ∧ tris.length = files.length ∧
      tris = files.map (fun fp =>
        (env.compute_contours fp, env.compute_all (env.compute_contours fp),
         predScores clf s (env.compute_all (env.compute_contours fp)))) := by
  intro σ γ α δ env clf files
  induction files with
  | nil =>
    intro s s2 tris hpres h
    simp only [process_audio_only, Prod.mk.injEq, Except.ok.injEq] at h
    obtain ⟨hs, ht⟩ := h
    simp [hs, ← ht]
  | cons fp rest ih =>
    intro s s2 tris hpres h
    unfold process_audio_only at h
    cases hp : clf.predict s (env.compute_all (env.compute_contours fp)) with
    | error e => rw [hp] at h; simp at h
    | ok r =>
      obtain ⟨s1, Yv⟩ := r
      have hs1 : s1 = s := hpres _ _ _ _ hp
      simp only [hp] at h
      cases hrec : process_audio_only env clf s1 rest with
      | mk sr er =>
        simp only [hrec] at h
        cases er with
        | error e => simp at h
        | ok tl =>
          simp only [Prod.mk.injEq, Except.ok.injEq] at h
          obtain ⟨hs2, htris⟩ := h
          obtain ⟨hsr, htl_len, htl⟩ := ih s1 sr tl hpres hrec
          rw [hs1] at hp
          have hfp : predScores clf s (env.compute_all (env.compute_contours fp)) = Yv := by
            simp only [predScores, hp]
          refine ⟨?_, ?_, ?_⟩
          · rw [← hs2, hsr, hs1]
          · rw [← htris]
            simp only [List.length_cons, htl_len]
          · rw [hs1] at htl
            rw [← htris]
            simp only [List.map_cons]
            rw [hfp, htl]

/-- Witness for C9 on a concrete two-file inference run. -/
theorem audio_inference_order_no_fit_witness :
    ((∀ (t : Unit) (M : Mat) (t2 : Unit) (p : List ℚ),
        clfW.predict t M = .ok (t2, p) → t2 = t) ∧
     process_audio_only envW clfW () ["a", "b"] =
       ((), .ok [(0, [[1]], [1]), (0, [[1]], [1])])) ∧
    (() = () ∧ ([(0, [[1]], [1]), (0, [[1]], [1])] :
        List (ℕ × Mat × List ℚ)).length = (["a", "b"]).length ∧
     ([(0, [[1]], [1]), (0, [[1]], [1])] : List (ℕ × Mat × List ℚ)) =
       ["a", "b"].map (fun fp =>
         (envW.compute_contours fp, envW.compute_all (envW.compute_contours fp),
          predScores clfW () (envW.compute_all (envW.compute_contours fp))))) := by
  have hpres : ∀ (t : Unit) (M : Mat) (t2 : Unit) (p : List ℚ),
      clfW.predict t M = .ok (t2, p) → t2 = t := fun _ _ _ _ _ => rfl
  have hrun : process_audio_only envW clfW () ["a", "b"] =
      ((), .ok [(0, [[1]], [1]), (0, [[1]], [1])]) := by
    simp [process_audio_only, envW, clfW]
  exact ⟨⟨hpres, hrun⟩,
         audio_inference_order_no_fit envW clfW ["a", "b"] () ()
           [(0, [[1]], [1]), (0, [[1]], [1])] hpres hrun⟩

/-- Claim C3: a `ValueError` raised by the classifier's `score` on the
testing path is recovered locally — the testing branch returns the empty
score dict — while a scoring failure on the training path is not caught:
`trainingPath` ends in that error, and `process` propagates a training
branch error to its caller. -/
theorem process_degenerate_scoring :
    (∀ {σ γ α δ : Type} (env : Env γ α δ) (clf : ClassifierI σ) (s : σ)
        (te : List (String × α)) (X : Mat) (Y : List ℚ) (ctrs : List γ)
        (s1 : σ) (pred : List ℚ) (msg : String),
      process_with_labels env te = .ok (X, Y, ctrs) →
      clf.predict s X = .ok (s1, pred) →
      clf.score pred Y none = .error (.valueError msg) →
      testingPath env clf s te = (s1, .ok ([], ctrs))) ∧
    (∀ {σ γ α δ : Type} (env : Env γ α δ) (clf : ClassifierI σ) (s : σ)
        (tp : List (String × α)) (X : Mat) (Y : List ℚ) (ctrs : List γ)
        (s2 : σ) (prob : List ℚ) (e : PyErr),
      process_with_labels env tp = .ok (X, Y, ctrs) →
      clf.predict (clf.fit s X Y) X = .ok (s2, prob) →
      clf.score (prob.map fun q => if clf.threshold ≤ q then (1 : ℚ) else 0)
          Y (some prob) = .error e →
      trainingPath env clf s tp = (s2, .error e)) ∧
    (∀ {σ γ α δ : Type} (env : Env γ α δ) (clf : ClassifierI σ) (s0 : σ)
        (tp : List (String × α)) (af : Option (List String))
        (te : Option (List (String × α))) (s1 : σ) (e : PyErr),
      trainingPath env clf s0 tp = (s1, .error e) →
      process env clf s0 af (some tp) te = (s1, .error e)) := by
  refine ⟨?_, ?_, ?_⟩
  · intro σ γ α δ env clf s te X Y ctrs s1 pred msg h1 h2 h3
    simp [testingPath, h1, h2, h3]
  · intro σ γ α δ env clf s tp X Y ctrs s2 prob e h1 h2 h3
    simp [trainingPath, h1, h2, h3]
  · intro σ γ α δ env clf s0 tp af te s1 e h
    simp [process, h]

/-- Witness for C3: a classifier whose `score` raises `ValueError` only on
the testing-style call, and one whose `score` always raises. -/
theorem process_degenerate_scoring_witness :
    ((process_with_labels envW [("a", 0)] = .ok ([[1]], [1], [0]) ∧
      clfVW.predict () [[1]] = .ok ((), [1]) ∧
      clfVW.score [1] [1] none = .error (.valueError "degenerate")) ∧
     testingPath envW clfVW () [("a", 0)] = ((), .ok ([], [0]))) ∧
    ((clfTW.predict (clfTW.fit () [[1]] [1]) [[1]] = .ok ((), [1]) ∧
      clfTW.score ([(1 : ℚ)].map fun q => if clfTW.threshold ≤ q then (1 : ℚ) else 0)
          [1] (some [1]) = .error (.valueError "bad")) ∧
     trainingPath envW clfTW () [("a", 0)] = ((), .error (.valueError "bad"))) ∧
    process envW clfTW () none (some [("a", 0)]) none = ((), .error (.valueError "bad")) := by
  have hpwl : process_with_labels envW [("a", 0)] = .ok ([[1]], [1], [0]) := by
    simp [process_with_labels, envW, fileFeats, fileLabels]
  have hp1 : clfVW.predict () [[1]] = .ok ((), [1]) := by simp [clfVW]
  have hs1 : clfVW.score [1] [1] none = .error (.valueError "degenerate") := rfl
  have hp2 : clfTW.predict (clfTW.fit () [[1]] [1]) [[1]] = .ok ((), [1]) := by
    simp [clfTW]
  have hs2 : clfTW.score
      ([(1 : ℚ)].map fun q => if clfTW.threshold ≤ q then (1 : ℚ) else 0)
      [1] (some [1]) = .error (.valueError "bad") := rfl
  have htr : trainingPath envW clfTW () [("a", 0)] = ((), .error (.valueError "bad")) :=
    process_degenerate_scoring.2.1 envW clfTW () [("a", 0)] [[1]] [1] [0] () [1]
      (.valueError "bad") hpwl hp2 hs2
  exact ⟨⟨⟨hpwl, hp1, hs1⟩,
          process_degenerate_scoring.1 envW clfVW () [("a", 0)] [[1]] [1] [0] () [1]
            "degenerate" hpwl hp1 hs1⟩,
         ⟨⟨hp2, hs2⟩, htr⟩,
         process_degenerate_scoring.2.2 envW clfTW () [("a", 0)] none none ()
           (.valueError "bad") htr⟩

/-- The return tuple raises once `train_scores` is unbound. -/
theorem isOkE_assemble_tr_none {γ : Type} (te : Option ScoreDict)
    (trc tec : Option (List γ)) (cl : Option (List (γ × Mat × List ℚ))) :
    isOkE (assembleReturn none te trc tec cl) = false := rfl

/-- The return tuple raises once `test_scores` is unbound. -/
theorem isOkE_assemble_te_none {γ : Type} (tr : Option ScoreDict)
    (trc tec : Option (List γ)) (cl : Option (List (γ × Mat × List ℚ))) :
    isOkE (assembleReturn tr none trc tec cl) = false := by
  cases tr <;> rfl

/-- The return tuple raises once `contour_list` is unbound. -/
theorem isOkE_assemble_cl_none {γ : Type} (tr te : Option ScoreDict)
    (trc tec : Option (List γ)) :
    isOkE (assembleReturn tr te trc tec none) = false := by
  cases tr <;> cases te <;> cases trc <;> cases tec <;> rfl

/-- After the branches, a run whose training branch never executed cannot
return normally. -/
theorem stage3_no_training_not_ok {σ γ α δ : Type} (env : Env γ α δ)
    (clf : ClassifierI σ) (s : σ) (af : Option (List String))
    (teRes : Option (ScoreDict × List γ)) :
    isOkE (processStage3 env clf s af none teRes).2 = false := by
  cases af with
  | none => rfl
  | some files =>
    cases h : process_audio_only env clf s files with
    | mk s1 er =>
      cases er with
      | error e => simp [processStage3, h, isOkE]
      | ok cl =>
        simp only [processStage3, h, Option.map_none']
        exact isOkE_assemble_tr_none _ _ _ _

/-- After the branches, a run whose testing branch never executed cannot
return normally. -/
theorem stage3_no_testing_not_ok {σ γ α δ : Type} (env : Env γ α δ)
    (clf : ClassifierI σ) (s : σ) (af : Option (List String))
    (trRes : Option (ScoreDict × List γ)) :
    isOkE (processStage3 env clf s af trRes none).2 = false := by
  cases af with
  | none =>
    simp only [processStage3]
    exact isOkE_assemble_te_none _ _ _ _
  | some files =>
    cases h : process_audio_only env clf s files with
    | mk s1 er =>
      cases er with
      | error e => simp [processStage3, h, isOkE]
      | ok cl =>
        simp only [processStage3, h, Option.map_none']
        exact isOkE_assemble_te_none _ _ _ _

/-- After the branches, a run without the audio branch cannot return
normally (its `contour_list` is unbound). -/
theorem stage3_no_audio_not_ok {σ γ α δ : Type} (env : Env γ α δ)
    (clf : ClassifierI σ) (s : σ) (trRes teRes : Option (ScoreDict × List γ)) :
    isOkE (processStage3 env clf s none trRes teRes).2 = false := by
  simp only [processStage3]
  exact isOkE_assemble_cl_none _ _ _ _

/-- From the testing branch on, a run with no training result cannot
return normally. -/
theorem stage2_no_training_not_ok {σ γ α δ : Type} (env : Env γ α δ)
    (clf : ClassifierI σ) (s : σ) (af : Option (List String))
    (te : Option (List (String × α))) :
    isOkE (processStage2 env clf s af te none).2 = false := by
  cases te with
  | none => exact stage3_no_training_not_ok env clf s af none
  | some tp =>
    cases h : testingPath env clf s tp with
    | mk s1 er =>
      cases er with
      | error e => simp [processStage2, h, isOkE]
      | ok r =>
        simp only [processStage2, h]
        exact stage3_no_training_not_ok env clf s1 af (some r)

/-- From the testing branch on, a run with `testing_pairs` absent cannot
return normally. -/
theorem stage2_no_testing_not_ok {σ γ α δ : Type} (env : Env γ α δ)
    (clf : ClassifierI σ) (s : σ) (af : Option (List String))
    (trRes : Option (ScoreDict × List γ)) :
    isOkE (processStage2 env clf s af none trRes).2 = false :=
  stage3_no_testing_not_ok env clf s af trRes

/-- From the testing branch on, a run with `audio_files` absent cannot
return normally. -/
theorem stage2_no_audio_not_ok {σ γ α δ : Type} (env : Env γ α δ)
    (clf : ClassifierI σ) (s : σ) (te : Option (List (String × α)))
    (trRes : Option (ScoreDict × List γ)) :
    isOkE (processStage2 env clf s none te trRes).2 = false := by
  cases te with
  | none => exact stage3_no_audio_not_ok env clf s trRes none
  | some tp =>
    cases h : testingPath env clf s tp with
    | mk s1 er =>
      cases er with
      | error e => simp [processStage2, h, isOkE]
      | ok r =>
        simp only [processStage2, h]
        exact stage3_no_audio_not_ok env clf s1 trRes (some r)

/-- Claim C2 fails on the code: whenever any of the three inputs is
absent, `process` cannot return normally — the `return` statement
references all five locals, and a local whose branch did not run is
unbound (`UnboundLocalError`), so an invocation supplying only a strict
subset of the inputs never returns a tuple. -/
theorem process_missing_input_never_returns :
    ∀ {σ γ α δ : Type} (env : Env γ α δ) (clf : ClassifierI σ) (s0 : σ)
      (af : Option (List String)) (tp te : Option (List (String × α))),
      tp = none ∨ te = none ∨ af = none →
      isOkE (process env clf s0 af tp te).2 = false := by
  intro σ γ α δ env clf s0 af tp te h
  rcases h with h | h | h
  · subst h
    exact stage2_no_training_not_ok env clf s0 af te
  · subst h
    cases tp with
    | none => exact stage2_no_testing_not_ok env clf s0 af none
    | some l =>
      cases htr : trainingPath env clf s0 l with
      | mk s1 er =>
        cases er with
        | error e => simp [process, htr, isOkE]
        | ok r =>
          simp only [process, htr]
          exact stage2_no_testing_not_ok env clf s1 af (some r)
  · subst h
    cases tp with
    | none => exact stage2_no_audio_not_ok env clf s0 te none
    | some l =>
      cases htr : trainingPath env clf s0 l with
      | mk s1 er =>
        cases er with
        | error e => simp [process, htr, isOkE]
        | ok r =>
          simp only [process, htr]
          exact stage2_no_audio_not_ok env clf s1 te (some r)

/-- Witness for the C2 counter-statement: a concrete invocation with
`training_pairs` absent (testing and audio supplied, every classifier
operation succeeding) does not return normally. -/
theorem process_missing_input_never_returns_witness :
    ((none : Option (List (String × ℕ))) = none ∨
     (some [("a", 0)] : Option (List (String × ℕ))) = none ∨
     (some ["a"] : Option (List String)) = none) ∧
    isOkE (process envW clfW () (some ["a"]) none (some [("a", 0)])).2 = false :=
  ⟨Or.inl rfl,
   process_missing_input_never_returns envW clfW () (some ["a"]) none
     (some [("a", 0)]) (Or.inl rfl)⟩

/-- Concrete divergence for C2: a training-only invocation runs the whole
training branch successfully and then raises `UnboundLocalError` for
`test_scores` at the `return` statement, instead of returning a tuple
with the absent outputs undefined. -/
theorem process_training_only_raises_unbound_test_scores :
    process envW clfW () none (some [("a", 0)]) none =
      ((), .error (.unboundLocal "test_scores")) := by
  have htr : trainingPath envW clfW () [("a", 0)] = ((), .ok ([], [0])) := by
    have hpwl : process_with_labels envW [("a", 0)] = .ok ([[1]], [1], [0]) := by
      simp [process_with_labels, envW, fileFeats, fileLabels]
    simp [trainingPath, hpwl, clfW]
  simp [process, htr, processStage2, processStage3, assembleReturn]

end Motif
